import Mathlib

/-!
# ztunnel-under-the-hood: handle hand-off and namespace-scoped listeners

A shallow embedding of the two programs of the repository:

* `cni-emulator/cni-emulator.go` (the Sender): dial the channel, open the
  namespace path, send one byte plus `unix.UnixRights(fd)`.
* `ztunnel-emulator/ztunnel-emulator.go` (the Receiver): `recvFD`, then the
  pin / capture / switch / bind / restore sequence and the accept loops.

The control-message codec the programs call (`CmsgSpace`, `UnixRights`,
`ParseSocketControlMessage`, `ParseUnixRights` of `golang.org/x/sys/unix`,
file `sockcmsg_unix.go`) is embedded for linux on a 64-bit little-endian
machine: `SizeofPtr = 8`, `SizeofCmsghdr = 16`, header layout
`Len uint64; Level int32; Type int32`.
-/

namespace Ztunnel

/-! ## Bytes and fixed-width integers -/

abbrev Byte := Fin 256

/-- Little-endian value of a byte string. -/
def leNat : List Byte → Nat
  | [] => 0
  | b :: bs => b.val + 256 * leNat bs

/-- The `n` little-endian bytes of `x` (bytes of `x % 256 ^ n`). -/
def leBytes : Nat → Nat → List Byte
  | 0, _ => []
  | n + 1, x => ⟨x % 256, Nat.mod_lt _ (by decide)⟩ :: leBytes n (x / 256)

/-- Go conversion `int32(x)` of an `int`, kept as its 32-bit pattern. -/
def int32Bits (x : Int) : Nat := (x % 4294967296).toNat

/-- Go conversion `int(v)` of the `int32` with bit pattern `n`. -/
def int32OfBits (n : Nat) : Int :=
  if n % 4294967296 < 2147483648 then (n % 4294967296 : Nat) else (n % 4294967296 : Nat) - 4294967296

/-! ## `golang.org/x/sys/unix`: socket control messages -/

def SizeofPtr : Nat := 8
def SizeofCmsghdr : Nat := 16
def SOL_SOCKET : Int := 1
def SCM_RIGHTS : Int := 1

/-- Go `cmsgAlignOf`: `(salen + salign - 1) & (^salign + 1)` with `salign = SizeofPtr`. -/
def cmsgAlignOf (salen : Nat) : Nat := (salen + SizeofPtr - 1) / SizeofPtr * SizeofPtr

/-- Go `CmsgLen`: the value to store in the `Len` field. -/
def CmsgLen (datalen : Nat) : Nat := cmsgAlignOf SizeofCmsghdr + datalen

/-- Go `CmsgSpace`: the bytes an ancillary element with that payload occupies. -/
def CmsgSpace (datalen : Nat) : Nat := cmsgAlignOf SizeofCmsghdr + cmsgAlignOf datalen

/-- The header `Cmsghdr`; `Type_` is the Go field `Type`. -/
structure Cmsghdr where
  Len : Nat
  Level : Int
  Type_ : Int
  deriving DecidableEq

structure SocketControlMessage where
  Header : Cmsghdr
  Data : List Byte
  deriving DecidableEq

inductive Error where
  | EINVAL
  | io
  | noCmsg
  | noFd
  deriving DecidableEq

deriving instance DecidableEq for Except

/-- The header read through `(*Cmsghdr)(unsafe.Pointer(&b[0]))`. -/
def Cmsghdr.read (b : List Byte) : Cmsghdr :=
  { Len := leNat (b.take 8)
    Level := int32OfBits (leNat ((b.drop 8).take 4))
    Type_ := int32OfBits (leNat ((b.drop 12).take 4)) }

/-- Go `socketControlMessageHeaderAndData`. -/
def socketControlMessageHeaderAndData (b : List Byte) : Except Error (Cmsghdr × List Byte) :=
  let h := Cmsghdr.read b
  if h.Len < SizeofCmsghdr ∨ h.Len > b.length then .error .EINVAL
  else .ok (h, (b.take h.Len).drop (cmsgAlignOf SizeofCmsghdr))

/-- The loop of `ParseSocketControlMessage` on the rest `b[i:]` of the buffer;
every turn consumes at least `SizeofCmsghdr` bytes, the first argument bounds
the number of turns. -/
def parseMessages : Nat → List Byte → Except Error (List SocketControlMessage)
  | 0, _ => .ok []
  | fuel + 1, b =>
    if CmsgLen 0 ≤ b.length then
      match socketControlMessageHeaderAndData b with
      | .error e => .error e
      | .ok (h, dbuf) =>
        match parseMessages fuel (b.drop (cmsgAlignOf h.Len)) with
        | .error e => .error e
        | .ok msgs => .ok (⟨h, dbuf⟩ :: msgs)
    else .ok []

/-- Go `ParseSocketControlMessage` parses `b` as an array of control messages. -/
def ParseSocketControlMessage (b : List Byte) : Except Error (List SocketControlMessage) :=
  parseMessages (b.length / SizeofCmsghdr + 1) b

/-- Result of a library call that may also stop with a Go run-time panic. -/
inductive GoResult (α : Type) where
  | ok (a : α)
  | err (e : Error)
  | crash
  deriving DecidableEq

/-- The copy loop of `ParseUnixRights`: `fds[j] = int(int32 at Data[i])`, `i += 4`.
`fds` has `len(Data)>>2` slots, so a trailing group of fewer than four bytes
indexes past its end (`none`: index out of range). -/
def rightsLoop : List Byte → Option (List Int)
  | [] => some []
  | b0 :: b1 :: b2 :: b3 :: rest =>
    match rightsLoop rest with
    | some fds => some (int32OfBits (leNat [b0, b1, b2, b3]) :: fds)
    | none => none
  | _ => none

/-- Go `ParseUnixRights` decodes a control message holding descriptors. -/
def ParseUnixRights (m : SocketControlMessage) : GoResult (List Int) :=
  if m.Header.Level ≠ SOL_SOCKET then .err .EINVAL
  else if m.Header.Type_ ≠ SCM_RIGHTS then .err .EINVAL
  else
    match rightsLoop m.Data with
    | some fds => .ok fds
    | none => .crash

/-- Go `UnixRights` encodes descriptors into a control message. -/
def UnixRights (fds : List Int) : List Byte :=
  let datalen := fds.length * 4
  let body := leBytes 8 (CmsgLen datalen)
    ++ leBytes 4 (int32Bits SOL_SOCKET) ++ leBytes 4 (int32Bits SCM_RIGHTS)
    ++ (fds.map fun fd => leBytes 4 (int32Bits fd)).flatten
  body ++ List.replicate (CmsgSpace datalen - body.length) 0

/-! ## The operating system as the two programs see it -/

/-- Identity of a network namespace. -/
abbrev Ns := Nat

/-- The handshake message on the channel: payload bytes and control data. -/
structure Msg where
  payload : List Byte
  control : List Byte
  deriving DecidableEq

/-- An accepted channel connection: the read error or the message its next
`ReadMsgUnix` finds. -/
structure UnixConn where
  incoming : Except Error Msg
  deriving DecidableEq

/-- Go `c.ReadMsgUnix(b, oob)` with `len(b) = blen`, `len(oob) = ooblen`: the
error, or `(n, oobn, b[:n], oob[:oobn])`; data that fits a buffer arrives whole. -/
def UnixConn.ReadMsgUnix (c : UnixConn) (blen ooblen : Nat) :
    Except Error (Nat × Nat × List Byte × List Byte) :=
  match c.incoming with
  | .error e => .error e
  | .ok m => .ok (min m.payload.length blen, min m.control.length ooblen,
      m.payload.take blen, m.control.take ooblen)

/-- What the process and its main thread hold: the thread's namespace
association, whether the main goroutine is pinned to it, the namespace each
open namespace descriptor denotes, and the TCP listeners with the namespace
they were bound in. -/
structure World where
  threadNs : Ns
  pinned : Bool
  handles : Int → Option Ns
  bound : List (String × Ns)

/-- The kernel side of `setns(fd, CLONE_NEWNET)`: refused for a descriptor that
is negative or denotes no namespace, or when the caller is not allowed; else the
thread's association becomes the namespace the descriptor denotes. -/
def World.setns (w : World) (fd : Int) (allowed : Bool) : Option World :=
  if fd < 0 then none
  else
    match w.handles fd with
    | none => none
    | some t => if allowed then some { w with threadNs := t } else none

/-- A successful `netns.Get`: the new descriptor denotes the thread's current
association. -/
def World.capture (w : World) (fd : Int) : World :=
  { w with handles := fun h => if h = fd then some w.threadNs else w.handles h }

/-- Closing a namespace descriptor. -/
def World.close (w : World) (fd : Int) : World :=
  { w with handles := fun h => if h = fd then none else w.handles h }

/-- A successful `net.Listen`: the socket belongs to the thread's namespace. -/
def World.listen (w : World) (addr : String) : World :=
  { w with bound := w.bound ++ [(addr, w.threadNs)] }

/-- Observable steps of a run, in program order. -/
inductive Event where
  | usage
  | osRemove (path : String)
  | listenUnix (path : String) (ok : Bool)
  | acceptUnix (ok : Bool)
  | readMsgUnix
  | lockOSThread
  | unlockOSThread
  | netnsGet (cur : Int) (ok : Bool)
  | nsClose (h : Int)
  | setns (fd : Int) (ok : Bool)
  | netListen (addr : String) (ok : Bool)
  | netnsSet (h : Int) (ok : Bool)
  | goAcceptLoop (addr : String)
  | println (s : String)
  | selectForever
  | dialUnix (path : String) (ok : Bool)
  | connClose
  | osOpen (path : String) (ok : Bool)
  | fileClose (fd : Int)
  | writeMsgUnix (m : Msg) (ok : Bool)
  | panic
  | exit (code : Nat)
  deriving DecidableEq

/-- How a run ends: the process exits with a code, or `main` blocks in
`select {}` while the accept loops serve. -/
inductive Exit where
  | code (n : Nat)
  | serving
  deriving DecidableEq

structure Run where
  trace : List Event
  world : World
  exit : Exit

/-- A process in flight: steps so far, pending deferred calls (last deferred
first), and the world. -/
structure Proc where
  trace : List Event
  defers : List Event
  world : World

def Proc.emit (p : Proc) (e : Event) : Proc := { p with trace := p.trace ++ [e] }

def Proc.defer (p : Proc) (e : Event) : Proc := { p with defers := e :: p.defers }

/-- The effect of a deferred call on the world. -/
def runDeferred (w : World) : Event → World
  | .nsClose h => w.close h
  | .unlockOSThread => { w with pinned := false }
  | _ => w

/-- A Go `panic`: the deferred calls run, last deferred first, then the
process exits with status 2. -/
def Proc.goPanic (p : Proc) : Run :=
  { trace := p.trace ++ [.panic] ++ p.defers ++ [.exit 2]
    world := p.defers.foldl runDeferred p.world
    exit := .code 2 }

/-! ## `ztunnel-emulator/ztunnel-emulator.go` -/

/-- What a call of `recvFD` yields: the pair `(int, error)` it returns, or a
run-time panic raised inside it. -/
inductive Ret where
  | returns (fd : Int) (err : Option Error)
  | crash
  deriving DecidableEq

/-- Go `recvFD`: read one message with a 1-byte payload buffer and a
`CmsgSpace(4)`-byte control buffer, parse `oob[:oobn]`, decode the first
control message, return its first descriptor. -/
def recvFD (c : UnixConn) : Ret :=
  match c.ReadMsgUnix 1 (CmsgSpace 4) with
  | .error e => .returns (-1) (some e)
  | .ok (_, _, _, oob) =>
    match ParseSocketControlMessage oob with
    | .error _ => .returns (-1) (some .noCmsg)
    | .ok [] => .returns (-1) (some .noCmsg)
    | .ok (scm0 :: _) =>
      match ParseUnixRights scm0 with
      | .crash => .crash
      | .err _ => .returns (-1) (some .noFd)
      | .ok [] => .returns (-1) (some .noFd)
      | .ok (fd0 :: _) => .returns fd0 none

/-- What the environment answers to the Receiver's calls. -/
structure Env where
  /-- Whether `net.ListenUnix` on the channel path succeeds. -/
  listenUnix : Bool
  /-- The connection `l.AcceptUnix()` returns, if it succeeds. -/
  acceptUnix : Option UnixConn
  /-- The descriptor `netns.Get()` returns, if it succeeds. -/
  netnsGet : Option Int
  /-- Whether the kernel lets the process enter the received namespace. -/
  setnsAllowed : Bool
  /-- Whether `net.Listen("tcp4", addr)` succeeds. -/
  netListen : String → Bool
  /-- Whether the kernel lets the process re-enter the captured namespace. -/
  netnsSetAllowed : Bool

def ports : List String := ["15008", "15006", "15001"]

/-- The loop `for _, p := range ports`: listen on `127.0.0.1:p`, panic on the
first failure, else append the listener. `.error` carries the process at
the panic. -/
def listenLoop (env : Env) : List String → Proc → List String → Except Proc (Proc × List String)
  | [], p, listeners => .ok (p, listeners)
  | port :: rest, p, listeners =>
    let addr := "127.0.0.1:" ++ port
    if env.netListen addr then
      listenLoop env rest
        { (p.emit (.netListen addr true)) with world := p.world.listen addr }
        (listeners ++ [addr])
    else .error (p.emit (.netListen addr false))

/-- The loop `for _, ln := range listeners { go func(l net.Listener) {...}(ln) }`. -/
def startLoops : List String → Proc → Proc
  | [], p => p
  | ln :: rest, p => startLoops rest (p.emit (.goAcceptLoop ln))

/-- The Receiver from the switch sequence on (source lines 41 to 67), entered
with the handle `nsfd` that `recvFD` returned. -/
def switchAndServe (env : Env) (nsfd : Int) (p : Proc) : Run :=
  let p := { (p.emit .lockOSThread) with world := { p.world with pinned := true } }
  let p := p.defer .unlockOSThread
  let cur : Int := env.netnsGet.getD (-1)
  let p := p.emit (.netnsGet cur env.netnsGet.isSome)
  let p := if env.netnsGet.isSome then { p with world := p.world.capture cur } else p
  let p := p.defer (.nsClose cur)
  match p.world.setns nsfd env.setnsAllowed with
  | none => (p.emit (.setns nsfd false)).goPanic
  | some w =>
    let p := { (p.emit (.setns nsfd true)) with world := w }
    match listenLoop env ports p [] with
    | .error p => p.goPanic
    | .ok (p, listeners) =>
      let p :=
        match p.world.setns cur env.netnsSetAllowed with
        | none => p.emit (.netnsSet cur false)
        | some w => { (p.emit (.netnsSet cur true)) with world := w }
      let p := startLoops listeners p
      let p := p.emit (.println "listeners ready")
      let p := p.emit .selectForever
      { trace := p.trace, world := p.world, exit := .serving }

/-- The Receiver `main`, on the argument vector `args` (`os.Args`). -/
def receiverMain (args : List String) (env : Env) (w : World) : Run :=
  if args.length ≠ 2 then { trace := [.usage, .exit 1], world := w, exit := .code 1 }
  else
    let uds := args.getD 1 ""
    let p : Proc := { trace := [.osRemove uds], defers := [], world := w }
    if ¬ env.listenUnix then (p.emit (.listenUnix uds false)).goPanic
    else
      let p := p.emit (.listenUnix uds true)
      let p := p.defer (.osRemove uds)
      match env.acceptUnix with
      | none => (p.emit (.acceptUnix false)).goPanic
      | some conn =>
        let p := p.emit (.acceptUnix true)
        let p := p.emit .readMsgUnix
        match recvFD conn with
        | .crash => p.goPanic
        | .returns _ (some _) => p.goPanic
        | .returns nsfd none => switchAndServe env nsfd p

/-! ## `cni-emulator/cni-emulator.go` -/

/-- What the environment answers to the Sender's calls. -/
structure SenderEnv where
  /-- Whether `net.DialUnix` reaches the channel. -/
  dialUnix : Bool
  /-- The descriptor of the file `os.Open(nsPath)` returns, if it succeeds. -/
  osOpen : Option Int
  /-- Whether `c.WriteMsgUnix` succeeds. -/
  writeMsgUnix : Bool

structure SenderRun where
  trace : List Event
  exit : Nat
  deriving DecidableEq

/-- A Go `panic` in the Sender, with the deferred calls pending. -/
def senderPanic (trace defers : List Event) : SenderRun :=
  { trace := trace ++ [.panic] ++ defers ++ [.exit 2], exit := 2 }

/-- The message the Sender writes for the descriptor `fd`:
`c.WriteMsgUnix([]byte{1}, unix.UnixRights(fd), nil)`. -/
def senderMsg (fd : Int) : Msg := { payload := [1], control := UnixRights [fd] }

/-- The Sender `main`, on the argument vector `args` (`os.Args`). -/
def senderMain (args : List String) (env : SenderEnv) : SenderRun :=
  if args.length ≠ 3 then { trace := [.usage, .exit 1], exit := 1 }
  else
    let uds := args.getD 1 ""
    let nsPath := args.getD 2 ""
    if ¬ env.dialUnix then senderPanic [.dialUnix uds false] []
    else
      let t := [Event.dialUnix uds true]
      let d := [Event.connClose]
      match env.osOpen with
      | none => senderPanic (t ++ [.osOpen nsPath false]) d
      | some fd =>
        let t := t ++ [.osOpen nsPath true]
        let d := Event.fileClose fd :: d
        let rights := senderMsg fd
        if ¬ env.writeMsgUnix then senderPanic (t ++ [.writeMsgUnix rights false]) d
        else
          { trace := t ++ [.writeMsgUnix rights true] ++ d ++ [.exit 0], exit := 0 }

/-! ## Observations on traces and the concrete runs the theorems use -/

/-- Control data of one rights message carrying the two handles 5 and 9:
`Len = CmsgLen(8) = 24`, `Level = SOL_SOCKET`, `Type = SCM_RIGHTS`. -/
def twoHandles : List Byte :=
  [24, 0, 0, 0, 0, 0, 0, 0, 1, 0, 0, 0, 1, 0, 0, 0, 5, 0, 0, 0, 9, 0, 0, 0]

/-- Control data of one rights message with a single data byte: `Len = 17`,
`Level = SOL_SOCKET`, `Type = SCM_RIGHTS`, so `len(Data)>>2 = 0` handles. -/
def shortRights : List Byte :=
  [17, 0, 0, 0, 0, 0, 0, 0, 1, 0, 0, 0, 1, 0, 0, 0, 5]

/-- Control data of one message of level `SOL_SOCKET` that is not a rights
message (`Type = 2`). -/
def notRights : List Byte :=
  [20, 0, 0, 0, 0, 0, 0, 0, 1, 0, 0, 0, 2, 0, 0, 0, 5, 0, 0, 0, 0, 0, 0, 0]

/-- The `net.Listen` attempts of a trace, in order, with their outcome. -/
def bindAttempts : List Event → List (String × Bool)
  | [] => []
  | .netListen addr ok :: t => (addr, ok) :: bindAttempts t
  | _ :: t => bindAttempts t

/-- The accept loops a trace starts, in order, by listener. -/
def loopsStarted : List Event → List String
  | [] => []
  | .goAcceptLoop addr :: t => addr :: loopsStarted t
  | _ :: t => loopsStarted t

/-- The process when `main` calls `runtime.LockOSThread` (source line 41). -/
def atSwitch (uds : String) (w : World) : Proc :=
  { trace := [.osRemove uds, .listenUnix uds true, .acceptUnix true, .readMsgUnix]
    defers := [.osRemove uds]
    world := w }

/-- The world after `netns.Get` in the environment `env`. -/
def afterCapture (env : Env) (w : World) : World :=
  if env.netnsGet.isSome then ({ w with pinned := true }).capture (env.netnsGet.getD (-1))
  else { w with pinned := true }

/-- The world after the three listeners were bound, starting from `w`. -/
def afterBinds (w : World) : World :=
  ((w.listen "127.0.0.1:15008").listen "127.0.0.1:15006").listen "127.0.0.1:15001"

/-- The world after `netns.Set(cur)` was attempted on `w`. -/
def afterRestore (env : Env) (w : World) : World :=
  match w.setns (env.netnsGet.getD (-1)) env.netnsSetAllowed with
  | none => w
  | some w2 => w2

/-- The steps of a run up to and including `netns.Get`. -/
def headTrace (env : Env) (uds : String) : List Event :=
  [.osRemove uds, .listenUnix uds true, .acceptUnix true, .readMsgUnix, .lockOSThread,
    .netnsGet (env.netnsGet.getD (-1)) env.netnsGet.isSome]

/-- The steps of a panic raised after the capture: the three deferred calls,
last deferred first, and the exit. -/
def panicTrace (env : Env) (uds : String) : List Event :=
  [.panic, .nsClose (env.netnsGet.getD (-1)), .unlockOSThread, .osRemove uds, .exit 2]

/-- The steps from the restore on, in a run that serves. -/
def serveTrace (env : Env) (w : World) : List Event :=
  [.netnsSet (env.netnsGet.getD (-1))
      ((w.setns (env.netnsGet.getD (-1)) env.netnsSetAllowed).isSome),
    .goAcceptLoop "127.0.0.1:15008", .goAcceptLoop "127.0.0.1:15006",
    .goAcceptLoop "127.0.0.1:15001", .println "listeners ready", .selectForever]

/-- The steps a run can take before `runtime.LockOSThread`, and the steps of a
panic raised there. -/
def Event.beforeSwitch : Event → Bool
  | .usage => true
  | .osRemove _ => true
  | .listenUnix _ _ => true
  | .acceptUnix _ => true
  | .readMsgUnix => true
  | .panic => true
  | .exit _ => true
  | _ => false

/-- A run in which every call succeeds: the Sender passed handle 5, which
denotes namespace 7; the thread starts in namespace 0; `netns.Get` returns
descriptor 6. -/
def servingEnv : Env :=
  { listenUnix := true
    acceptUnix := some ⟨.ok (senderMsg 5)⟩
    netnsGet := some 6
    setnsAllowed := true
    netListen := fun _ => true
    netnsSetAllowed := true }

def servingWorld : World :=
  { threadNs := 0
    pinned := false
    handles := fun h => if h = 5 then some 7 else none
    bound := [] }

/-- The steps that close a connection, a namespace handle or a file. -/
def Event.closes : Event → Bool
  | .connClose => true
  | .nsClose _ => true
  | .fileClose _ => true
  | _ => false

/-- An environment in which the bind on port 15006 fails. -/
def secondBindFails : Env :=
  { servingEnv with netListen := fun addr => addr != "127.0.0.1:15006" }

/-- The steps of the switch sequence: pin, capture, switch, bind, restore. -/
def Event.inSwitchSequence : Event → Bool
  | .lockOSThread => true
  | .netnsGet _ _ => true
  | .setns _ _ => true
  | .netListen _ _ => true
  | .netnsSet _ _ => true
  | _ => false

/-- An environment in which `netns.Get` fails: `cur` is -1 and `netns.Set(cur)`
is refused. -/
def captureFails : Env := { servingEnv with netnsGet := none }

/-! ## Facts about the codec -/

theorem cmsgAlignOf_hdr : cmsgAlignOf SizeofCmsghdr = 16 := by decide

theorem CmsgLen_zero : CmsgLen 0 = 16 := by decide

theorem CmsgSpace_four : CmsgSpace 4 = 24 := by decide

theorem cmsgAlignOf_ge (n : Nat) : n ≤ cmsgAlignOf n := by
  unfold cmsgAlignOf SizeofPtr
  omega

/-- The bound on the turns of the parse loop is never reached: one more turn
than `len(b) / 16 + 1` changes nothing, so `ParseSocketControlMessage` is the
loop run to its end. -/
theorem parseMessages_fuel_enough : ∀ (fuel : Nat) (b : List Byte),
    b.length / 16 < fuel → parseMessages (fuel + 1) b = parseMessages fuel b := by
  intro fuel
  induction fuel with
  | zero => intro b h; omega
  | succ k ih =>
    intro b h
    rw [parseMessages, parseMessages]
    by_cases hlen : CmsgLen 0 ≤ b.length
    · simp only [hlen, if_true]
      cases hh : socketControlMessageHeaderAndData b with
      | error e => rfl
      | ok hd =>
        obtain ⟨hdr, dbuf⟩ := hd
        have hbig : 16 ≤ hdr.Len := by
          unfold socketControlMessageHeaderAndData at hh
          simp only [SizeofCmsghdr] at hh
          split at hh
          · cases hh
          · rename_i hcond
            simp only [Except.ok.injEq, Prod.mk.injEq] at hh
            rw [← hh.1]
            omega
        have hal := cmsgAlignOf_ge hdr.Len
        have hdrop : (b.drop (cmsgAlignOf hdr.Len)).length / 16 < k := by
          rw [List.length_drop]
          rw [CmsgLen_zero] at hlen
          omega
        simp only [ih _ hdrop]
    · simp only [hlen, if_false]

theorem rightsLoop_length : ∀ (n : Nat) (d : List Byte) (fds : List Int),
    d.length ≤ n → rightsLoop d = some fds → fds.length * 4 = d.length := by
  intro n
  induction n with
  | zero =>
    intro d fds hn h
    have hd : d = [] := List.length_eq_zero.mp (Nat.le_zero.mp hn)
    subst hd
    simp [rightsLoop] at h
    subst h
    rfl
  | succ k ih =>
    intro d fds hn h
    match d, h with
    | [], h =>
      simp [rightsLoop] at h
      subst h
      rfl
    | [_], h => simp [rightsLoop] at h
    | [_, _], h => simp [rightsLoop] at h
    | [_, _, _], h => simp [rightsLoop] at h
    | b0 :: b1 :: b2 :: b3 :: rest, h =>
      simp only [rightsLoop] at h
      cases hr : rightsLoop rest with
      | none => simp [hr] at h
      | some tl =>
        simp only [hr, Option.some.injEq] at h
        subst h
        have hlen : rest.length ≤ k := by
          simp only [List.length_cons] at hn
          omega
        have := ih rest tl hlen hr
        simp only [List.length_cons]
        omega

/-- The first message `ParseSocketControlMessage` returns starts at offset 0:
its header is the one read there and its data is `b[16:Len]`. -/
theorem parse_first (b : List Byte) (m : SocketControlMessage)
    (rest : List SocketControlMessage)
    (h : ParseSocketControlMessage b = .ok (m :: rest)) :
    16 ≤ b.length ∧ m.Header = Cmsghdr.read b ∧ 16 ≤ m.Header.Len ∧
      m.Header.Len ≤ b.length ∧ m.Data = (b.take m.Header.Len).drop 16 := by
  unfold ParseSocketControlMessage at h
  simp only [parseMessages, CmsgLen_zero] at h
  by_cases hlen : 16 ≤ b.length
  · simp only [hlen, if_true] at h
    unfold socketControlMessageHeaderAndData at h
    simp only [cmsgAlignOf_hdr] at h
    by_cases hbad : (Cmsghdr.read b).Len < SizeofCmsghdr ∨ (Cmsghdr.read b).Len > b.length
    · simp [hbad] at h
    · simp only [hbad, if_false] at h
      simp only [SizeofCmsghdr, not_or, not_lt, gt_iff_lt] at hbad
      split at h
      · cases h
      · rename_i msgs _
        simp only [Except.ok.injEq, List.cons.injEq] at h
        obtain ⟨hm, _⟩ := h
        subst hm
        exact ⟨hlen, rfl, hbad.1, hbad.2, rfl⟩
  · simp [hlen] at h

/-! ## C1: how many handles `recvFD` accepts -/

/-- C1, counterexample: the 24 bytes `twoHandles` fit the `CmsgSpace(4)` control
buffer, parse to one rights message that decodes to the two handles 5 and 9,
and `recvFD` returns the first of them, 5, with no error. -/
theorem recvFD_two_handles_not_rejected :
    twoHandles.length ≤ CmsgSpace 4 ∧
    ParseSocketControlMessage twoHandles
      = .ok [⟨⟨24, SOL_SOCKET, SCM_RIGHTS⟩, [5, 0, 0, 0, 9, 0, 0, 0]⟩] ∧
    ParseUnixRights ⟨⟨24, SOL_SOCKET, SCM_RIGHTS⟩, [5, 0, 0, 0, 9, 0, 0, 0]⟩ = .ok [5, 9] ∧
    recvFD ⟨.ok ⟨[1], twoHandles⟩⟩ = .returns 5 none := by
  decide

/-- C1, amended: for every control data of length at most `CmsgSpace(4)` whose
first control message is a rights message carrying two or more handles, the
message carries exactly two and `recvFD` returns the first of them with no
error. -/
theorem recvFD_returns_first_of_several (payload control : List Byte)
    (m : SocketControlMessage) (rest : List SocketControlMessage) (fds : List Int)
    (hlen : control.length ≤ CmsgSpace 4)
    (hparse : ParseSocketControlMessage control = .ok (m :: rest))
    (hrights : ParseUnixRights m = .ok fds)
    (hmany : 2 ≤ fds.length) :
    ∃ fd0 fd1, fds = [fd0, fd1] ∧
      recvFD ⟨.ok ⟨payload, control⟩⟩ = .returns fd0 none := by
  rw [CmsgSpace_four] at hlen
  obtain ⟨_, _, h16, _, hdata⟩ := parse_first control m rest hparse
  have hloop : rightsLoop m.Data = some fds := by
    unfold ParseUnixRights at hrights
    split at hrights
    · cases hrights
    · split at hrights
      · cases hrights
      · cases hr : rightsLoop m.Data with
        | none => simp [hr] at hrights
        | some l =>
          simp only [hr, GoResult.ok.injEq] at hrights
          rw [hrights]
  have hcount := rightsLoop_length m.Data.length m.Data fds (Nat.le_refl _) hloop
  have hdlen : m.Data.length ≤ 8 := by
    rw [hdata, List.length_drop, List.length_take]
    omega
  have htake : control.take (CmsgSpace 4) = control :=
    List.take_of_length_le (by rw [CmsgSpace_four]; exact hlen)
  match fds, hmany, hcount, hrights with
  | [fd0, fd1], _, _, hrights =>
    refine ⟨fd0, fd1, rfl, ?_⟩
    simp [recvFD, UnixConn.ReadMsgUnix, htake, hparse, hrights]
  | _ :: _ :: _ :: _, _, hcount, _ =>
    simp only [List.length_cons] at hcount
    omega

/-- C1, the amended statement at the two-handle message `twoHandles`. -/
theorem recvFD_returns_first_of_several_witness :
    ∃ fd0 fd1, ([5, 9] : List Int) = [fd0, fd1] ∧
      recvFD ⟨.ok ⟨[1], twoHandles⟩⟩ = .returns fd0 none :=
  recvFD_returns_first_of_several [1] twoHandles
    ⟨⟨24, SOL_SOCKET, SCM_RIGHTS⟩, [5, 0, 0, 0, 9, 0, 0, 0]⟩ [] [5, 9]
    (by decide) (by decide) (by decide) (by decide)

/-! ## C3: round trip of the handshake message -/

theorem leNat_leBytes_four (x : Nat) : leNat (leBytes 4 x) = x % 4294967296 := by
  simp only [leBytes, leNat]
  omega

theorem int32_roundtrip (h : Int) (hlo : -2147483648 ≤ h) (hhi : h < 2147483648) :
    int32OfBits (leNat (leBytes 4 (int32Bits h))) = h := by
  rw [leNat_leBytes_four]
  unfold int32OfBits int32Bits
  split <;> omega

/-- The control data `UnixRights` builds for one descriptor: the header
`Len = 20, Level = 1, Type = 1`, the four bytes of the descriptor, four bytes
of padding. -/
theorem UnixRights_single (h : Int) :
    UnixRights [h] = [20, 0, 0, 0, 0, 0, 0, 0, 1, 0, 0, 0, 1, 0, 0, 0]
      ++ leBytes 4 (int32Bits h) ++ [0, 0, 0, 0] := by
  simp [UnixRights, leBytes, CmsgLen, CmsgSpace, cmsgAlignOf, SizeofPtr, SizeofCmsghdr,
    int32Bits, SOL_SOCKET, SCM_RIGHTS]

theorem parse_single (b0 b1 b2 b3 : Byte) :
    ParseSocketControlMessage ([20, 0, 0, 0, 0, 0, 0, 0, 1, 0, 0, 0, 1, 0, 0, 0]
      ++ [b0, b1, b2, b3] ++ [0, 0, 0, 0])
      = .ok [⟨⟨20, SOL_SOCKET, SCM_RIGHTS⟩, [b0, b1, b2, b3]⟩] := by
  have h20 : ((20 : Byte) : Nat) = 20 := rfl
  have h1 : ((1 : Byte) : Nat) = 1 := rfl
  simp [h20, h1, ParseSocketControlMessage, parseMessages, socketControlMessageHeaderAndData,
    Cmsghdr.read, leNat, int32OfBits, CmsgLen, cmsgAlignOf, SizeofPtr, SizeofCmsghdr,
    SOL_SOCKET, SCM_RIGHTS]

theorem leBytes_four_cons (x : Nat) :
    ∃ b0 b1 b2 b3 : Byte, leBytes 4 x = [b0, b1, b2, b3] :=
  ⟨_, _, _, _, rfl⟩

/-- C3: for every handle `h` (a descriptor, a 32-bit C `int`), a Sender that
opened `h` writes the message `senderMsg h`: one payload byte and the control
data `UnixRights(h)`, whose length is `CmsgSpace(4)`, so the Receiver's read
delivers it whole; it parses to exactly one control message, which decodes to
exactly the one handle `h`, and `recvFD` returns `h` with no error. -/
theorem handshake_roundtrip (h : Int) (hlo : -2147483648 ≤ h) (hhi : h < 2147483648) :
    (∀ (args : List String) (env : SenderEnv), args.length = 3 → env.dialUnix = true →
        env.osOpen = some h →
        Event.writeMsgUnix (senderMsg h) env.writeMsgUnix ∈ (senderMain args env).trace) ∧
    (senderMsg h).payload.length = 1 ∧
    (senderMsg h).control = UnixRights [h] ∧
    (UnixRights [h]).length = CmsgSpace 4 ∧
    UnixConn.ReadMsgUnix ⟨.ok (senderMsg h)⟩ 1 (CmsgSpace 4)
      = .ok (1, CmsgSpace 4, (senderMsg h).payload, UnixRights [h]) ∧
    (∃ m, ParseSocketControlMessage (UnixRights [h]) = .ok [m] ∧
      ParseUnixRights m = .ok [h]) ∧
    recvFD ⟨.ok (senderMsg h)⟩ = .returns h none := by
  have hround := int32_roundtrip h hlo hhi
  have hlen : (UnixRights [h]).length = CmsgSpace 4 := by
    rw [UnixRights_single, CmsgSpace_four]
    simp [leBytes]
  have htake : (UnixRights [h]).take (CmsgSpace 4) = UnixRights [h] :=
    List.take_of_length_le (Nat.le_of_eq hlen)
  obtain ⟨b0, b1, b2, b3, hb⟩ := leBytes_four_cons (int32Bits h)
  have hparse : ParseSocketControlMessage (UnixRights [h])
      = .ok [⟨⟨20, SOL_SOCKET, SCM_RIGHTS⟩, [b0, b1, b2, b3]⟩] := by
    rw [UnixRights_single, hb]
    exact parse_single b0 b1 b2 b3
  have hrights : ParseUnixRights ⟨⟨20, SOL_SOCKET, SCM_RIGHTS⟩, [b0, b1, b2, b3]⟩
      = .ok [h] := by
    rw [hb] at hround
    simp [ParseUnixRights, rightsLoop, hround]
  refine ⟨?_, rfl, rfl, hlen, ?_, ⟨_, hparse, hrights⟩, ?_⟩
  · intro args env hargs hdial hopen
    cases hw : env.writeMsgUnix <;> simp [senderMain, senderPanic, hargs, hdial, hopen, hw]
  · simp [UnixConn.ReadMsgUnix, senderMsg, htake, hlen]
  · simp [recvFD, UnixConn.ReadMsgUnix, senderMsg, htake, hparse, hrights]

/-- C3 at the handle 5. -/
theorem handshake_roundtrip_witness :
    (-2147483648 : Int) ≤ 5 ∧ (5 : Int) < 2147483648 ∧
    recvFD ⟨.ok (senderMsg 5)⟩ = .returns 5 none :=
  ⟨by decide, by decide, (handshake_roundtrip 5 (by decide) (by decide)).2.2.2.2.2.2⟩

/-! ## C2: a message without a handle -/

/-- The Receiver when `recvFD` returns an error: `panic(err)` right after the
read, with only the removal of the channel path deferred. -/
theorem receiverMain_recv_error (args : List String) (env : Env) (w : World)
    (conn : UnixConn) (fd : Int) (e : Error)
    (hargs : args.length = 2) (hlisten : env.listenUnix = true)
    (haccept : env.acceptUnix = some conn)
    (hrecv : recvFD conn = .returns fd (some e)) :
    (receiverMain args env w).exit = .code 2 ∧
    (receiverMain args env w).trace =
      [.osRemove (args.getD 1 ""), .listenUnix (args.getD 1 "") true, .acceptUnix true,
        .readMsgUnix, .panic, .osRemove (args.getD 1 ""), .exit 2] := by
  simp [receiverMain, hargs, hlisten, haccept, hrecv, Proc.emit, Proc.defer, Proc.goPanic]

/-- The Receiver when a run-time panic is raised inside `recvFD`: the same
steps as when `recvFD` returns an error. -/
theorem receiverMain_recv_crash (args : List String) (env : Env) (w : World)
    (conn : UnixConn)
    (hargs : args.length = 2) (hlisten : env.listenUnix = true)
    (haccept : env.acceptUnix = some conn)
    (hrecv : recvFD conn = .crash) :
    (receiverMain args env w).exit = .code 2 ∧
    (receiverMain args env w).trace =
      [.osRemove (args.getD 1 ""), .listenUnix (args.getD 1 "") true, .acceptUnix true,
        .readMsgUnix, .panic, .osRemove (args.getD 1 ""), .exit 2] := by
  simp [receiverMain, hargs, hlisten, haccept, hrecv, Proc.emit, Proc.defer, Proc.goPanic]

/-- A rights message with one to three data bytes makes `ParseUnixRights`
index past the end of its empty result; with no data bytes it decodes to no
handle. -/
theorem ParseUnixRights_short (m : SocketControlMessage)
    (hl : m.Header.Level = SOL_SOCKET) (ht : m.Header.Type_ = SCM_RIGHTS)
    (hz : m.Data.length / 4 = 0) :
    (m.Data = [] ∧ ParseUnixRights m = .ok []) ∨
    (m.Data ≠ [] ∧ ParseUnixRights m = .crash) := by
  obtain ⟨hdr, data⟩ := m
  simp only at hl ht hz
  match data, hz with
  | [], _ => exact Or.inl ⟨rfl, by simp [ParseUnixRights, hl, ht, rightsLoop]⟩
  | [_], _ => exact Or.inr ⟨by simp, by simp [ParseUnixRights, hl, ht, rightsLoop]⟩
  | [_, _], _ => exact Or.inr ⟨by simp, by simp [ParseUnixRights, hl, ht, rightsLoop]⟩
  | [_, _, _], _ => exact Or.inr ⟨by simp, by simp [ParseUnixRights, hl, ht, rightsLoop]⟩
  | _ :: _ :: _ :: _ :: rest, hz =>
    simp only [List.length_cons] at hz
    omega

/-- C2, counterexample: the 17 bytes `shortRights` fit the control buffer and
parse to one rights message with a single data byte, which holds zero handles
(`len(Data)>>2 = 0`); `ParseUnixRights` panics on it, so `recvFD` does not
return an error with handle -1: it does not return at all. The run still ends
in a panic with exit status 2. -/
theorem recvFD_panics_on_short_rights :
    shortRights.length ≤ CmsgSpace 4 ∧
    ParseSocketControlMessage shortRights = .ok [⟨⟨17, SOL_SOCKET, SCM_RIGHTS⟩, [5]⟩] ∧
    ([5] : List Byte).length / 4 = 0 ∧
    ParseUnixRights ⟨⟨17, SOL_SOCKET, SCM_RIGHTS⟩, [5]⟩ = .crash ∧
    recvFD ⟨.ok ⟨[1], shortRights⟩⟩ = .crash ∧
    (¬ ∃ e, recvFD ⟨.ok ⟨[1], shortRights⟩⟩ = .returns (-1) (some e)) ∧
    (receiverMain ["ztunnel-emulator", "/tmp/t.sock"]
      ⟨true, some ⟨.ok ⟨[1], shortRights⟩⟩, some 6, true, fun _ => true, true⟩
      ⟨0, false, fun _ => none, []⟩).exit = .code 2 := by
  refine ⟨by decide, by decide, by decide, by decide, by decide, ?_, by decide⟩
  rintro ⟨e, he⟩
  have hc : recvFD ⟨.ok ⟨[1], shortRights⟩⟩ = .crash := by decide
  rw [hc] at he
  cases he

/-- C2, amended: in every run of the Receiver whose read delivers control data
`oob` that is empty, holds no control message, fails to parse, or whose first
control message is not a rights message or holds zero handles (fewer than four
data bytes), the run ends in a panic (exit status 2) and the trace holds no
thread pin, no namespace switch (neither `Setns` nor `netns.Set`) and no
`net.Listen` of the listener set. `recvFD` returns handle -1 with an error,
except when the first message is a rights message with one to three data
bytes: there `ParseUnixRights` panics inside `recvFD`. -/
theorem receiver_fatal_on_message_without_handle (args : List String) (env : Env)
    (w : World) (conn : UnixConn) (n oobn : Nat) (b oob : List Byte)
    (hargs : args.length = 2) (hlisten : env.listenUnix = true)
    (haccept : env.acceptUnix = some conn)
    (hread : conn.ReadMsgUnix 1 (CmsgSpace 4) = .ok (n, oobn, b, oob))
    (hbad : oob = [] ∨ ParseSocketControlMessage oob = .ok [] ∨
      (∃ e, ParseSocketControlMessage oob = .error e) ∨
      (∃ m rest, ParseSocketControlMessage oob = .ok (m :: rest) ∧
        (m.Header.Level ≠ SOL_SOCKET ∨ m.Header.Type_ ≠ SCM_RIGHTS ∨
          m.Data.length / 4 = 0))) :
    ((∃ m rest, ParseSocketControlMessage oob = .ok (m :: rest) ∧
        m.Header.Level = SOL_SOCKET ∧ m.Header.Type_ = SCM_RIGHTS ∧ m.Data ≠ []) →
      recvFD conn = .crash) ∧
    ((¬ ∃ m rest, ParseSocketControlMessage oob = .ok (m :: rest) ∧
        m.Header.Level = SOL_SOCKET ∧ m.Header.Type_ = SCM_RIGHTS ∧ m.Data ≠ []) →
      ∃ e, recvFD conn = .returns (-1) (some e)) ∧
    (receiverMain args env w).exit = .code 2 ∧
    Event.panic ∈ (receiverMain args env w).trace ∧
    Event.lockOSThread ∉ (receiverMain args env w).trace ∧
    (∀ fd ok, Event.setns fd ok ∉ (receiverMain args env w).trace) ∧
    (∀ h ok, Event.netnsSet h ok ∉ (receiverMain args env w).trace) ∧
    (∀ addr ok, Event.netListen addr ok ∉ (receiverMain args env w).trace) := by
  have hrecv : (recvFD conn = .crash ∧
        ∃ m rest, ParseSocketControlMessage oob = .ok (m :: rest) ∧
          m.Header.Level = SOL_SOCKET ∧ m.Header.Type_ = SCM_RIGHTS ∧ m.Data ≠ []) ∨
      ((∃ e, recvFD conn = .returns (-1) (some e)) ∧
        ¬ ∃ m rest, ParseSocketControlMessage oob = .ok (m :: rest) ∧
          m.Header.Level = SOL_SOCKET ∧ m.Header.Type_ = SCM_RIGHTS ∧ m.Data ≠ []) := by
    unfold recvFD
    rw [hread]
    rcases hbad with h | h | ⟨e, h⟩ | ⟨m, rest, h, hm⟩
    · subst h
      have hp : ParseSocketControlMessage ([] : List Byte) = .ok [] := by decide
      refine Or.inr ⟨⟨.noCmsg, by simp [hp]⟩, ?_⟩
      rintro ⟨m, rest, hm, _⟩
      rw [hp] at hm
      cases hm
    · refine Or.inr ⟨⟨.noCmsg, by simp [h]⟩, ?_⟩
      rintro ⟨m, rest, hm, _⟩
      rw [h] at hm
      cases hm
    · refine Or.inr ⟨⟨.noCmsg, by simp [h]⟩, ?_⟩
      rintro ⟨m, rest, hm, _⟩
      rw [h] at hm
      cases hm
    · by_cases hl : m.Header.Level = SOL_SOCKET
      · by_cases ht : m.Header.Type_ = SCM_RIGHTS
        · have hz : m.Data.length / 4 = 0 := by
            rcases hm with hm | hm | hm
            · exact absurd hl hm
            · exact absurd ht hm
            · exact hm
          rcases ParseUnixRights_short m hl ht hz with ⟨hd, hp⟩ | ⟨hd, hp⟩
          · refine Or.inr ⟨⟨.noFd, by simp [h, hp]⟩, ?_⟩
            rintro ⟨m2, rest2, hm2, _, _, hne⟩
            rw [h] at hm2
            simp only [Except.ok.injEq, List.cons.injEq] at hm2
            rw [← hm2.1] at hne
            exact hne hd
          · exact Or.inl ⟨by simp [h, hp], m, rest, h, hl, ht, hd⟩
        · refine Or.inr ⟨⟨.noFd, by simp [h, ParseUnixRights, ht]⟩, ?_⟩
          rintro ⟨m2, rest2, hm2, _, ht2, _⟩
          rw [h] at hm2
          simp only [Except.ok.injEq, List.cons.injEq] at hm2
          rw [← hm2.1] at ht2
          exact ht ht2
      · refine Or.inr ⟨⟨.noFd, by simp [h, ParseUnixRights, hl]⟩, ?_⟩
        rintro ⟨m2, rest2, hm2, hl2, _, _⟩
        rw [h] at hm2
        simp only [Except.ok.injEq, List.cons.injEq] at hm2
        rw [← hm2.1] at hl2
        exact hl hl2
  have hrun : (receiverMain args env w).exit = .code 2 ∧
      (receiverMain args env w).trace =
        [.osRemove (args.getD 1 ""), .listenUnix (args.getD 1 "") true, .acceptUnix true,
          .readMsgUnix, .panic, .osRemove (args.getD 1 ""), .exit 2] := by
    rcases hrecv with ⟨hc, _⟩ | ⟨⟨e, he⟩, _⟩
    · exact receiverMain_recv_crash args env w conn hargs hlisten haccept hc
    · exact receiverMain_recv_error args env w conn (-1) e hargs hlisten haccept he
  obtain ⟨hexit, htrace⟩ := hrun
  refine ⟨?_, ?_, hexit, ?_, ?_, ?_, ?_, ?_⟩
  · intro hex
    rcases hrecv with ⟨hc, _⟩ | ⟨_, hno⟩
    · exact hc
    · exact absurd hex hno
  · intro hno
    rcases hrecv with ⟨_, hex⟩ | ⟨he, _⟩
    · exact absurd hex hno
    · exact he
  all_goals simp [htrace]

/-- C2, the amended statement at a run whose message carries the control data
`notRights`: `recvFD` returns handle -1 with an error and the run panics. -/
theorem receiver_fatal_on_message_without_handle_witness :
    (∃ e, recvFD ⟨.ok ⟨[1], notRights⟩⟩ = .returns (-1) (some e)) ∧
    (receiverMain ["ztunnel-emulator", "/tmp/t.sock"]
      ⟨true, some ⟨.ok ⟨[1], notRights⟩⟩, some 6, true, fun _ => true, true⟩
      ⟨0, false, fun _ => none, []⟩).exit = .code 2 :=
  let h := receiver_fatal_on_message_without_handle ["ztunnel-emulator", "/tmp/t.sock"]
    ⟨true, some ⟨.ok ⟨[1], notRights⟩⟩, some 6, true, fun _ => true, true⟩
    ⟨0, false, fun _ => none, []⟩ ⟨.ok ⟨[1], notRights⟩⟩ 1 24 [1] notRights
    (by decide) rfl rfl (by decide)
    (Or.inr (Or.inr (Or.inr ⟨⟨⟨20, 1, 2⟩, [5, 0, 0, 0]⟩, [], by decide,
      Or.inr (Or.inl (by decide))⟩)))
  ⟨h.2.1 (by
      rintro ⟨m, rest, hm, _, ht, _⟩
      have hp : ParseSocketControlMessage notRights
          = .ok [⟨⟨20, 1, 2⟩, [5, 0, 0, 0]⟩] := by decide
      rw [hp] at hm
      simp only [Except.ok.injEq, List.cons.injEq] at hm
      rw [← hm.1] at ht
      exact absurd ht (by decide)),
    h.2.2.1⟩

/-! ## C4: the Sender when the namespace path cannot be opened -/

/-- C4, counterexample: a Sender run on a namespace path that does not open
has already dialled the channel, successfully, before the failed open; the
run then panics, closes the connection and exits with status 2. -/
theorem sender_connects_before_failed_open :
    (senderMain ["cni-emulator", "/tmp/t.sock", "/nope"] ⟨true, none, true⟩).trace
      = [.dialUnix "/tmp/t.sock" true, .osOpen "/nope" false, .panic, .connClose, .exit 2] ∧
    (senderMain ["cni-emulator", "/tmp/t.sock", "/nope"] ⟨true, none, true⟩).exit = 2 := by
  decide

/-- C4, amended: every Sender run in which opening the namespace path fails
ends in a panic with exit status 2; its trace is the successful connect to the
channel, the failed open, the panic, the deferred close of the connection and
the exit, so the connect precedes the open and no message is written. -/
theorem sender_failed_open_is_fatal_after_connect (args : List String) (env : SenderEnv)
    (path : String) (hfail : Event.osOpen path false ∈ (senderMain args env).trace) :
    (senderMain args env).exit = 2 ∧
    (senderMain args env).trace
      = [.dialUnix (args.getD 1 "") true, .osOpen path false, .panic, .connClose, .exit 2] ∧
    (∀ m ok, Event.writeMsgUnix m ok ∉ (senderMain args env).trace) := by
  unfold senderMain at hfail ⊢
  by_cases hargs : args.length = 3
  · cases hdial : env.dialUnix
    · simp [hargs, hdial, senderPanic] at hfail
    · cases hopen : env.osOpen with
      | none =>
        simp [hargs, hdial, hopen, senderPanic] at hfail ⊢
        exact hfail.symm
      | some fd =>
        cases hw : env.writeMsgUnix <;>
          simp [hargs, hdial, hopen, hw, senderPanic] at hfail
  · simp [hargs] at hfail

/-- C4, the amended statement at the run on the path `/nope`. -/
theorem sender_failed_open_is_fatal_after_connect_witness :
    Event.osOpen "/nope" false ∈
      (senderMain ["cni-emulator", "/tmp/t.sock", "/nope"] ⟨true, none, true⟩).trace ∧
    (senderMain ["cni-emulator", "/tmp/t.sock", "/nope"] ⟨true, none, true⟩).exit = 2 :=
  ⟨by decide,
    (sender_failed_open_is_fatal_after_connect ["cni-emulator", "/tmp/t.sock", "/nope"]
      ⟨true, none, true⟩ "/nope" (by decide)).1⟩

/-! ## Shape of the Receiver's runs -/

theorem switchAndServe_switch_fails (env : Env) (nsfd : Int) (uds : String) (w : World)
    (hsw : (afterCapture env w).setns nsfd env.setnsAllowed = none) :
    (switchAndServe env nsfd (atSwitch uds w)).trace
      = headTrace env uds ++ [.setns nsfd false] ++ panicTrace env uds ∧
    (switchAndServe env nsfd (atSwitch uds w)).exit = .code 2 := by
  unfold afterCapture at hsw
  cases hg : env.netnsGet <;>
    simp [hg] at hsw <;>
    simp [switchAndServe, atSwitch, Proc.emit, Proc.defer, Proc.goPanic, hg, hsw,
      headTrace, panicTrace]

theorem switchAndServe_first_bind_fails (env : Env) (nsfd : Int) (uds : String)
    (w w1 : World)
    (hsw : (afterCapture env w).setns nsfd env.setnsAllowed = some w1)
    (h1 : env.netListen "127.0.0.1:15008" = false) :
    (switchAndServe env nsfd (atSwitch uds w)).trace
      = headTrace env uds ++ [.setns nsfd true, .netListen "127.0.0.1:15008" false]
        ++ panicTrace env uds ∧
    (switchAndServe env nsfd (atSwitch uds w)).exit = .code 2 := by
  unfold afterCapture at hsw
  cases hg : env.netnsGet <;>
    simp [hg] at hsw <;>
    simp [switchAndServe, atSwitch, Proc.emit, Proc.defer, Proc.goPanic, hg, hsw,
      headTrace, panicTrace, listenLoop, ports, h1]

theorem switchAndServe_second_bind_fails (env : Env) (nsfd : Int) (uds : String)
    (w w1 : World)
    (hsw : (afterCapture env w).setns nsfd env.setnsAllowed = some w1)
    (h1 : env.netListen "127.0.0.1:15008" = true)
    (h2 : env.netListen "127.0.0.1:15006" = false) :
    (switchAndServe env nsfd (atSwitch uds w)).trace
      = headTrace env uds ++ [.setns nsfd true, .netListen "127.0.0.1:15008" true,
          .netListen "127.0.0.1:15006" false] ++ panicTrace env uds ∧
    (switchAndServe env nsfd (atSwitch uds w)).exit = .code 2 := by
  unfold afterCapture at hsw
  cases hg : env.netnsGet <;>
    simp [hg] at hsw <;>
    simp [switchAndServe, atSwitch, Proc.emit, Proc.defer, Proc.goPanic, hg, hsw,
      headTrace, panicTrace, listenLoop, ports, h1, h2]

theorem switchAndServe_third_bind_fails (env : Env) (nsfd : Int) (uds : String)
    (w w1 : World)
    (hsw : (afterCapture env w).setns nsfd env.setnsAllowed = some w1)
    (h1 : env.netListen "127.0.0.1:15008" = true)
    (h2 : env.netListen "127.0.0.1:15006" = true)
    (h3 : env.netListen "127.0.0.1:15001" = false) :
    (switchAndServe env nsfd (atSwitch uds w)).trace
      = headTrace env uds ++ [.setns nsfd true, .netListen "127.0.0.1:15008" true,
          .netListen "127.0.0.1:15006" true, .netListen "127.0.0.1:15001" false]
        ++ panicTrace env uds ∧
    (switchAndServe env nsfd (atSwitch uds w)).exit = .code 2 := by
  unfold afterCapture at hsw
  cases hg : env.netnsGet <;>
    simp [hg] at hsw <;>
    simp [switchAndServe, atSwitch, Proc.emit, Proc.defer, Proc.goPanic, hg, hsw,
      headTrace, panicTrace, listenLoop, ports, h1, h2, h3]

theorem switchAndServe_serves (env : Env) (nsfd : Int) (uds : String)
    (w w1 : World)
    (hsw : (afterCapture env w).setns nsfd env.setnsAllowed = some w1)
    (h1 : env.netListen "127.0.0.1:15008" = true)
    (h2 : env.netListen "127.0.0.1:15006" = true)
    (h3 : env.netListen "127.0.0.1:15001" = true) :
    (switchAndServe env nsfd (atSwitch uds w)).trace
      = headTrace env uds ++ [.setns nsfd true, .netListen "127.0.0.1:15008" true,
          .netListen "127.0.0.1:15006" true, .netListen "127.0.0.1:15001" true]
        ++ serveTrace env (afterBinds w1) ∧
    (switchAndServe env nsfd (atSwitch uds w)).exit = .serving ∧
    (switchAndServe env nsfd (atSwitch uds w)).world = afterRestore env (afterBinds w1) := by
  unfold afterCapture at hsw
  cases hg : env.netnsGet <;>
    simp [hg] at hsw <;>
    simp [switchAndServe, atSwitch, Proc.emit, Proc.defer, hg, hsw,
      headTrace, serveTrace, listenLoop, ports, h1, h2, h3, afterBinds, afterRestore,
      startLoops] <;>
    split <;> simp_all

/-- A run either stops before the switch sequence, or is the switch sequence
entered with the handle `recvFD` returned for the accepted connection. -/
theorem receiverMain_cases (args : List String) (env : Env) (w : World) :
    ((receiverMain args env w).exit ≠ .serving ∧
      ∀ e ∈ (receiverMain args env w).trace, e.beforeSwitch = true) ∨
    ∃ conn nsfd, args.length = 2 ∧ env.listenUnix = true ∧ env.acceptUnix = some conn ∧
      recvFD conn = .returns nsfd none ∧
      receiverMain args env w = switchAndServe env nsfd (atSwitch (args.getD 1 "") w) := by
  unfold receiverMain
  by_cases hargs : args.length = 2
  · cases hl : env.listenUnix
    · left
      simp [hargs, hl, Proc.emit, Proc.goPanic, Event.beforeSwitch]
    · cases ha : env.acceptUnix with
      | none =>
        left
        simp [hargs, hl, ha, Proc.emit, Proc.defer, Proc.goPanic, Event.beforeSwitch]
      | some conn =>
        cases hr : recvFD conn with
        | crash =>
          left
          simp [hargs, hl, ha, hr, Proc.emit, Proc.defer, Proc.goPanic, Event.beforeSwitch]
        | returns fd err =>
          cases err with
          | some e =>
            left
            simp [hargs, hl, ha, hr, Proc.emit, Proc.defer, Proc.goPanic, Event.beforeSwitch]
          | none =>
            right
            refine ⟨conn, fd, hargs, rfl, rfl, hr, ?_⟩
            simp [hargs, hl, ha, hr, Proc.emit, Proc.defer, atSwitch]
  · left
    simp [hargs, Event.beforeSwitch]

/-- Every run of the switch sequence: the switch is refused, or one of the
three binds fails, or the run serves. -/
theorem switchAndServe_cases (env : Env) (nsfd : Int) (uds : String) (w : World) :
    ((afterCapture env w).setns nsfd env.setnsAllowed = none ∧
      (switchAndServe env nsfd (atSwitch uds w)).trace
        = headTrace env uds ++ [.setns nsfd false] ++ panicTrace env uds ∧
      (switchAndServe env nsfd (atSwitch uds w)).exit = .code 2) ∨
    ∃ w1, (afterCapture env w).setns nsfd env.setnsAllowed = some w1 ∧
      ((env.netListen "127.0.0.1:15008" = false ∧
        (switchAndServe env nsfd (atSwitch uds w)).trace
          = headTrace env uds ++ [.setns nsfd true, .netListen "127.0.0.1:15008" false]
            ++ panicTrace env uds ∧
        (switchAndServe env nsfd (atSwitch uds w)).exit = .code 2) ∨
      (env.netListen "127.0.0.1:15008" = true ∧ env.netListen "127.0.0.1:15006" = false ∧
        (switchAndServe env nsfd (atSwitch uds w)).trace
          = headTrace env uds ++ [.setns nsfd true, .netListen "127.0.0.1:15008" true,
              .netListen "127.0.0.1:15006" false] ++ panicTrace env uds ∧
        (switchAndServe env nsfd (atSwitch uds w)).exit = .code 2) ∨
      (env.netListen "127.0.0.1:15008" = true ∧ env.netListen "127.0.0.1:15006" = true ∧
        env.netListen "127.0.0.1:15001" = false ∧
        (switchAndServe env nsfd (atSwitch uds w)).trace
          = headTrace env uds ++ [.setns nsfd true, .netListen "127.0.0.1:15008" true,
              .netListen "127.0.0.1:15006" true, .netListen "127.0.0.1:15001" false]
            ++ panicTrace env uds ∧
        (switchAndServe env nsfd (atSwitch uds w)).exit = .code 2) ∨
      (env.netListen "127.0.0.1:15008" = true ∧ env.netListen "127.0.0.1:15006" = true ∧
        env.netListen "127.0.0.1:15001" = true ∧
        (switchAndServe env nsfd (atSwitch uds w)).trace
          = headTrace env uds ++ [.setns nsfd true, .netListen "127.0.0.1:15008" true,
              .netListen "127.0.0.1:15006" true, .netListen "127.0.0.1:15001" true]
            ++ serveTrace env (afterBinds w1) ∧
        (switchAndServe env nsfd (atSwitch uds w)).exit = .serving ∧
        (switchAndServe env nsfd (atSwitch uds w)).world
          = afterRestore env (afterBinds w1))) := by
  cases hsw : (afterCapture env w).setns nsfd env.setnsAllowed with
  | none => exact Or.inl ⟨rfl, switchAndServe_switch_fails env nsfd uds w hsw⟩
  | some w1 =>
    refine Or.inr ⟨w1, rfl, ?_⟩
    cases h1 : env.netListen "127.0.0.1:15008"
    · exact Or.inl ⟨rfl, switchAndServe_first_bind_fails env nsfd uds w w1 hsw h1⟩
    · cases h2 : env.netListen "127.0.0.1:15006"
      · exact Or.inr (Or.inl ⟨rfl, rfl,
          switchAndServe_second_bind_fails env nsfd uds w w1 hsw h1 h2⟩)
      · cases h3 : env.netListen "127.0.0.1:15001"
        · exact Or.inr (Or.inr (Or.inl ⟨rfl, rfl, rfl,
            switchAndServe_third_bind_fails env nsfd uds w w1 hsw h1 h2 h3⟩))
        · exact Or.inr (Or.inr (Or.inr ⟨rfl, rfl, rfl,
            switchAndServe_serves env nsfd uds w w1 hsw h1 h2 h3⟩))

/-- A run that serves went through the whole switch sequence with all three
binds succeeding; its trace and final world are determined. -/
theorem receiverMain_serving (args : List String) (env : Env) (w : World)
    (h : (receiverMain args env w).exit = .serving) :
    ∃ conn nsfd w1, env.acceptUnix = some conn ∧ recvFD conn = .returns nsfd none ∧
      (afterCapture env w).setns nsfd env.setnsAllowed = some w1 ∧
      (receiverMain args env w).trace
        = headTrace env (args.getD 1 "") ++ [.setns nsfd true,
            .netListen "127.0.0.1:15008" true, .netListen "127.0.0.1:15006" true,
            .netListen "127.0.0.1:15001" true] ++ serveTrace env (afterBinds w1) ∧
      (receiverMain args env w).world = afterRestore env (afterBinds w1) := by
  rcases receiverMain_cases args env w with ⟨hne, _⟩ | ⟨conn, nsfd, _, _, ha, hr, hrun⟩
  · exact absurd h hne
  · rw [hrun] at h ⊢
    rcases switchAndServe_cases env nsfd (args.getD 1 "") w with
      ⟨_, _, he⟩ | ⟨w1, hsw, hc⟩
    · rw [he] at h
      cases h
    · rcases hc with ⟨_, _, he⟩ | ⟨_, _, _, he⟩ | ⟨_, _, _, _, he⟩ | ⟨_, _, _, ht, _, hw⟩
      · rw [he] at h
        cases h
      · rw [he] at h
        cases h
      · rw [he] at h
        cases h
      · exact ⟨conn, nsfd, w1, ha, hr, hsw, ht, hw⟩

/-! ## C5: when the thread is unpinned -/

/-- C5, the code at the run in which every call succeeds: the Receiver pins
the thread, restores the namespace, starts the three accept loops and blocks
in `select {}`; the deferred `runtime.UnlockOSThread` never runs, the trace
holds no unpin and the thread is still pinned while serving. -/
theorem serving_run_never_unpins :
    (receiverMain ["ztunnel-emulator", "/tmp/t.sock"] servingEnv servingWorld).exit
      = .serving ∧
    (receiverMain ["ztunnel-emulator", "/tmp/t.sock"] servingEnv servingWorld).trace
      = [.osRemove "/tmp/t.sock", .listenUnix "/tmp/t.sock" true, .acceptUnix true,
          .readMsgUnix, .lockOSThread, .netnsGet 6 true, .setns 5 true,
          .netListen "127.0.0.1:15008" true, .netListen "127.0.0.1:15006" true,
          .netListen "127.0.0.1:15001" true, .netnsSet 6 true,
          .goAcceptLoop "127.0.0.1:15008", .goAcceptLoop "127.0.0.1:15006",
          .goAcceptLoop "127.0.0.1:15001", .println "listeners ready", .selectForever] ∧
    Event.unlockOSThread ∉
      (receiverMain ["ztunnel-emulator", "/tmp/t.sock"] servingEnv servingWorld).trace ∧
    (receiverMain ["ztunnel-emulator", "/tmp/t.sock"] servingEnv servingWorld).world.pinned
      = true := by
  decide

/-! ## C6: what is closed when serving starts -/

/-- C6, counterexample: in the run in which every call succeeds the Receiver
serves, having received handle 5 and captured handle 6, and its trace holds no
close at all: the connection, the received handle and the captured handle are
all still open. -/
theorem serving_run_closes_nothing :
    (receiverMain ["ztunnel-emulator", "/tmp/t.sock"] servingEnv servingWorld).exit
      = .serving ∧
    recvFD ⟨.ok (senderMsg 5)⟩ = .returns 5 none ∧
    Event.netnsGet 6 true ∈
      (receiverMain ["ztunnel-emulator", "/tmp/t.sock"] servingEnv servingWorld).trace ∧
    (∀ e ∈ (receiverMain ["ztunnel-emulator", "/tmp/t.sock"] servingEnv servingWorld).trace,
      e.closes = false) := by
  decide

/-- C6, amended: in every run of the Receiver that starts serving, the trace
holds no close of the accepted connection and no close of the handle `recvFD`
returned: both are still open while the Receiver serves. -/
theorem serving_keeps_connection_and_handle_open (args : List String) (env : Env)
    (w : World) (h : (receiverMain args env w).exit = .serving) :
    Event.connClose ∉ (receiverMain args env w).trace ∧
    ∀ conn nsfd, env.acceptUnix = some conn → recvFD conn = .returns nsfd none →
      Event.nsClose nsfd ∉ (receiverMain args env w).trace ∧
      Event.fileClose nsfd ∉ (receiverMain args env w).trace := by
  obtain ⟨_, _, _, _, _, _, ht, _⟩ := receiverMain_serving args env w h
  rw [ht]
  refine ⟨by simp [headTrace, serveTrace], ?_⟩
  intro conn nsfd _ _
  constructor <;> simp [headTrace, serveTrace]

/-- C6, the amended statement at the run in which every call succeeds. -/
theorem serving_keeps_connection_and_handle_open_witness :
    (receiverMain ["ztunnel-emulator", "/tmp/t.sock"] servingEnv servingWorld).exit
      = .serving ∧
    Event.connClose ∉
      (receiverMain ["ztunnel-emulator", "/tmp/t.sock"] servingEnv servingWorld).trace :=
  ⟨by decide,
    (serving_keeps_connection_and_handle_open ["ztunnel-emulator", "/tmp/t.sock"]
      servingEnv servingWorld (by decide)).1⟩

/-! ## C7: all three listeners or none -/

/-- A run that switched to `nsfd` is the switch sequence entered with `nsfd`,
after a switch the kernel accepted. -/
theorem receiverMain_switched (args : List String) (env : Env) (w : World) (nsfd : Int)
    (h : Event.setns nsfd true ∈ (receiverMain args env w).trace) :
    (∃ w1, (afterCapture env w).setns nsfd env.setnsAllowed = some w1) ∧
      receiverMain args env w = switchAndServe env nsfd (atSwitch (args.getD 1 "") w) := by
  rcases receiverMain_cases args env w with ⟨_, hpre⟩ | ⟨conn, fd, _, _, _, _, hrun⟩
  · have := hpre _ h
    simp [Event.beforeSwitch] at this
  · rw [hrun] at h
    rcases switchAndServe_cases env fd (args.getD 1 "") w with
      ⟨_, ht, _⟩ | ⟨w1, hsw, hc⟩
    · rw [ht] at h
      simp [headTrace, panicTrace] at h
    · have hfd : fd = nsfd := by
        rcases hc with ⟨_, ht, _⟩ | ⟨_, _, ht, _⟩ | ⟨_, _, _, ht, _⟩ | ⟨_, _, _, ht, _⟩ <;>
          · rw [ht] at h
            simp [headTrace, panicTrace, serveTrace] at h
            exact h.symm
      subst hfd
      exact ⟨⟨w1, hsw⟩, hrun⟩

/-- C7: in every run of the Receiver that reached the binds (the switch to the
received handle succeeded), for every combination of outcomes of the binds on
127.0.0.1:15008, 127.0.0.1:15006 and 127.0.0.1:15001: accept loops are
started, and the run serves, if and only if all three binds succeed, and then
exactly three loops are started, one per listener in bind order; if the first,
second or third bind fails the run ends in a panic (exit status 2), no later
bind is attempted and no accept loop is started. -/
theorem listener_set_all_or_nothing (args : List String) (env : Env) (w : World)
    (nsfd : Int) (hswitch : Event.setns nsfd true ∈ (receiverMain args env w).trace) :
    (loopsStarted (receiverMain args env w).trace ≠ [] ↔
      (env.netListen "127.0.0.1:15008" = true ∧ env.netListen "127.0.0.1:15006" = true ∧
        env.netListen "127.0.0.1:15001" = true)) ∧
    ((receiverMain args env w).exit = .serving ↔
      (env.netListen "127.0.0.1:15008" = true ∧ env.netListen "127.0.0.1:15006" = true ∧
        env.netListen "127.0.0.1:15001" = true)) ∧
    (env.netListen "127.0.0.1:15008" = true → env.netListen "127.0.0.1:15006" = true →
      env.netListen "127.0.0.1:15001" = true →
      bindAttempts (receiverMain args env w).trace
        = [("127.0.0.1:15008", true), ("127.0.0.1:15006", true), ("127.0.0.1:15001", true)] ∧
      loopsStarted (receiverMain args env w).trace
        = ["127.0.0.1:15008", "127.0.0.1:15006", "127.0.0.1:15001"]) ∧
    (env.netListen "127.0.0.1:15008" = false →
      (receiverMain args env w).exit = .code 2 ∧
      bindAttempts (receiverMain args env w).trace = [("127.0.0.1:15008", false)] ∧
      loopsStarted (receiverMain args env w).trace = []) ∧
    (env.netListen "127.0.0.1:15008" = true → env.netListen "127.0.0.1:15006" = false →
      (receiverMain args env w).exit = .code 2 ∧
      bindAttempts (receiverMain args env w).trace
        = [("127.0.0.1:15008", true), ("127.0.0.1:15006", false)] ∧
      loopsStarted (receiverMain args env w).trace = []) ∧
    (env.netListen "127.0.0.1:15008" = true → env.netListen "127.0.0.1:15006" = true →
      env.netListen "127.0.0.1:15001" = false →
      (receiverMain args env w).exit = .code 2 ∧
      bindAttempts (receiverMain args env w).trace
        = [("127.0.0.1:15008", true), ("127.0.0.1:15006", true), ("127.0.0.1:15001", false)] ∧
      loopsStarted (receiverMain args env w).trace = []) := by
  obtain ⟨⟨w1, hsw⟩, hrun⟩ := receiverMain_switched args env w nsfd hswitch
  rw [hrun]
  rcases switchAndServe_cases env nsfd (args.getD 1 "") w with
    ⟨hno, _, _⟩ | ⟨w2, _, hc⟩
  · rw [hsw] at hno
    cases hno
  · rcases hc with ⟨h1, ht, he⟩ | ⟨h1, h2, ht, he⟩ | ⟨h1, h2, h3, ht, he⟩ |
      ⟨h1, h2, h3, ht, he, _⟩
    · rw [ht, he]
      simp [h1, headTrace, panicTrace, bindAttempts, loopsStarted]
    · rw [ht, he]
      simp [h1, h2, headTrace, panicTrace, bindAttempts, loopsStarted]
    · rw [ht, he]
      simp [h1, h2, h3, headTrace, panicTrace, bindAttempts, loopsStarted]
    · rw [ht, he]
      simp [h1, h2, h3, headTrace, serveTrace, bindAttempts, loopsStarted]

/-- C7 at a run in which the bind on port 15006 fails. -/
theorem listener_set_all_or_nothing_witness :
    Event.setns 5 true ∈
      (receiverMain ["ztunnel-emulator", "/tmp/t.sock"] secondBindFails servingWorld).trace ∧
    (receiverMain ["ztunnel-emulator", "/tmp/t.sock"] secondBindFails servingWorld).exit
      = .code 2 ∧
    bindAttempts
        (receiverMain ["ztunnel-emulator", "/tmp/t.sock"] secondBindFails servingWorld).trace
      = [("127.0.0.1:15008", true), ("127.0.0.1:15006", false)] ∧
    loopsStarted
        (receiverMain ["ztunnel-emulator", "/tmp/t.sock"] secondBindFails servingWorld).trace
      = [] :=
  ⟨by decide,
    (listener_set_all_or_nothing ["ztunnel-emulator", "/tmp/t.sock"] secondBindFails
      servingWorld 5 (by decide)).2.2.2.2.1 (by decide) (by decide)⟩

/-! ## C8: order of the switch sequence -/

/-- C8: in every run of the Receiver that reaches the restore step
(`netns.Set(cur)`), the trace is some steps `pre`, then, contiguously and in
this order, pin thread, capture the current namespace as `cur`, successful
switch to the received handle, the three successful binds, restore to `cur`,
then some steps `post`; neither `pre` nor `post` holds a pin, capture, switch,
bind or restore, so every bind lies after the switch and before the restore
and nowhere else. -/
theorem switch_sequence_order (args : List String) (env : Env) (w : World)
    (cur : Int) (ok : Bool)
    (h : Event.netnsSet cur ok ∈ (receiverMain args env w).trace) :
    ∃ pre post nsfd gok,
      (receiverMain args env w).trace
        = pre ++ [.lockOSThread, .netnsGet cur gok, .setns nsfd true,
            .netListen "127.0.0.1:15008" true, .netListen "127.0.0.1:15006" true,
            .netListen "127.0.0.1:15001" true, .netnsSet cur ok] ++ post ∧
      (∀ e ∈ pre, e.inSwitchSequence = false) ∧
      (∀ e ∈ post, e.inSwitchSequence = false) := by
  rcases receiverMain_cases args env w with ⟨_, hpre⟩ | ⟨conn, nsfd, _, _, _, _, hrun⟩
  · have := hpre _ h
    simp [Event.beforeSwitch] at this
  · rw [hrun] at h ⊢
    rcases switchAndServe_cases env nsfd (args.getD 1 "") w with
      ⟨_, ht, _⟩ | ⟨w1, hsw, hc⟩
    · rw [ht] at h
      simp [headTrace, panicTrace] at h
    · rcases hc with ⟨_, ht, _⟩ | ⟨_, _, ht, _⟩ | ⟨_, _, _, ht, _⟩ | ⟨_, _, _, ht, _⟩
      · rw [ht] at h
        simp [headTrace, panicTrace] at h
      · rw [ht] at h
        simp [headTrace, panicTrace] at h
      · rw [ht] at h
        simp [headTrace, panicTrace] at h
      · rw [ht] at h ⊢
        simp [headTrace, serveTrace] at h
        obtain ⟨hcur, hok⟩ := h
        refine ⟨[.osRemove (args.getD 1 ""), .listenUnix (args.getD 1 "") true,
            .acceptUnix true, .readMsgUnix],
          [.goAcceptLoop "127.0.0.1:15008", .goAcceptLoop "127.0.0.1:15006",
            .goAcceptLoop "127.0.0.1:15001", .println "listeners ready", .selectForever],
          nsfd, env.netnsGet.isSome, ?_, ?_, ?_⟩
        · simp [headTrace, serveTrace, hcur, hok]
        · simp [Event.inSwitchSequence]
        · simp [Event.inSwitchSequence]

/-- C8 at the run in which every call succeeds. -/
theorem switch_sequence_order_witness :
    Event.netnsSet 6 true ∈
      (receiverMain ["ztunnel-emulator", "/tmp/t.sock"] servingEnv servingWorld).trace ∧
    ∃ pre post nsfd gok,
      (receiverMain ["ztunnel-emulator", "/tmp/t.sock"] servingEnv servingWorld).trace
        = pre ++ [.lockOSThread, .netnsGet 6 gok, .setns nsfd true,
            .netListen "127.0.0.1:15008" true, .netListen "127.0.0.1:15006" true,
            .netListen "127.0.0.1:15001" true, .netnsSet 6 true] ++ post ∧
      (∀ e ∈ pre, e.inSwitchSequence = false) ∧
      (∀ e ∈ post, e.inSwitchSequence = false) :=
  ⟨by decide,
    switch_sequence_order ["ztunnel-emulator", "/tmp/t.sock"] servingEnv servingWorld 6 true
      (by decide)⟩

/-! ## C9 and C10: the thread's namespace after the sequence -/

/-- A run whose handshake succeeded is the switch sequence entered with the
received handle. -/
theorem receiverMain_of_handshake (args : List String) (env : Env) (w : World)
    (conn : UnixConn) (nsfd : Int)
    (hargs : args.length = 2) (hlisten : env.listenUnix = true)
    (haccept : env.acceptUnix = some conn) (hrecv : recvFD conn = .returns nsfd none) :
    receiverMain args env w = switchAndServe env nsfd (atSwitch (args.getD 1 "") w) := by
  simp [receiverMain, hargs, hlisten, haccept, hrecv, Proc.emit, Proc.defer, atSwitch]

/-- C9: for every initial association `w.threadNs` of the thread and every
received handle `nsfd` denoting a namespace `t`: if the handshake succeeds,
the capture succeeds (returning a fresh descriptor `cur`), the switch, the
three binds and the restore succeed, then the run serves, the thread's
association after the sequence is the initial one, and the three listeners
are recorded as bound in `t`. -/
theorem restore_returns_thread_to_original (args : List String) (env : Env) (w : World)
    (conn : UnixConn) (nsfd cur : Int) (t : Ns)
    (hargs : args.length = 2) (hlisten : env.listenUnix = true)
    (haccept : env.acceptUnix = some conn) (hrecv : recvFD conn = .returns nsfd none)
    (hnsfd : 0 ≤ nsfd) (htarget : w.handles nsfd = some t)
    (hget : env.netnsGet = some cur) (hcur : 0 ≤ cur) (hfresh : w.handles cur = none)
    (hswitch : env.setnsAllowed = true)
    (h1 : env.netListen "127.0.0.1:15008" = true)
    (h2 : env.netListen "127.0.0.1:15006" = true)
    (h3 : env.netListen "127.0.0.1:15001" = true)
    (hrestore : env.netnsSetAllowed = true) :
    (receiverMain args env w).exit = .serving ∧
    Event.setns nsfd true ∈ (receiverMain args env w).trace ∧
    Event.netnsSet cur true ∈ (receiverMain args env w).trace ∧
    (receiverMain args env w).world.threadNs = w.threadNs ∧
    (receiverMain args env w).world.bound
      = w.bound ++ [("127.0.0.1:15008", t), ("127.0.0.1:15006", t), ("127.0.0.1:15001", t)] := by
  have hne : nsfd ≠ cur := by
    intro heq
    rw [heq, hfresh] at htarget
    cases htarget
  have hlt : ¬ nsfd < 0 := not_lt.mpr hnsfd
  have hlc : ¬ cur < 0 := not_lt.mpr hcur
  have hsw : (afterCapture env w).setns nsfd env.setnsAllowed
      = some { (afterCapture env w) with threadNs := t } := by
    simp [afterCapture, World.setns, World.capture, hget, hlt, hne, htarget, hswitch]
  rw [receiverMain_of_handshake args env w conn nsfd hargs hlisten haccept hrecv]
  obtain ⟨ht, he, hw⟩ := switchAndServe_serves env nsfd (args.getD 1 "") w _ hsw h1 h2 h3
  rw [ht, he, hw]
  simp [headTrace, serveTrace, afterRestore, afterBinds, afterCapture, World.setns,
    World.capture, World.listen, hget, hlc, hrestore]

/-- C9 at the run in which every call succeeds: the thread starts in
namespace 0, the received handle 5 denotes namespace 7. -/
theorem restore_returns_thread_to_original_witness :
    (receiverMain ["ztunnel-emulator", "/tmp/t.sock"] servingEnv servingWorld).world.threadNs
      = 0 ∧
    (receiverMain ["ztunnel-emulator", "/tmp/t.sock"] servingEnv servingWorld).world.bound
      = [("127.0.0.1:15008", 7), ("127.0.0.1:15006", 7), ("127.0.0.1:15001", 7)] :=
  let h := restore_returns_thread_to_original ["ztunnel-emulator", "/tmp/t.sock"] servingEnv
    servingWorld ⟨.ok (senderMsg 5)⟩ 5 6 7 (by decide) rfl rfl (by decide) (by decide)
    (by decide) rfl (by decide) (by decide) rfl rfl rfl rfl rfl
  ⟨h.2.2.2.1, h.2.2.2.2⟩

/-- C10: the results of `netns.Get` and `netns.Set` are dropped. In every run
in which the handshake succeeds with a handle `nsfd` denoting a namespace, the
switch to it is allowed and the three binds succeed, the Receiver serves the
three listeners, whatever `netns.Get` and `netns.Set` do. And in the run with
`captureFails` the capture fails, the restore is attempted on handle -1 and
fails, and the Receiver serves with the thread associated to the target
namespace 7, not to its original namespace 0. -/
theorem capture_and_restore_errors_ignored :
    (∀ (args : List String) (env : Env) (w : World) (conn : UnixConn) (nsfd : Int) (t : Ns),
      args.length = 2 → env.listenUnix = true → env.acceptUnix = some conn →
      recvFD conn = .returns nsfd none → 0 ≤ nsfd → w.handles nsfd = some t →
      env.setnsAllowed = true → env.netListen "127.0.0.1:15008" = true →
      env.netListen "127.0.0.1:15006" = true → env.netListen "127.0.0.1:15001" = true →
      (receiverMain args env w).exit = .serving ∧
      loopsStarted (receiverMain args env w).trace
        = ["127.0.0.1:15008", "127.0.0.1:15006", "127.0.0.1:15001"]) ∧
    ((receiverMain ["ztunnel-emulator", "/tmp/t.sock"] captureFails servingWorld).exit
        = .serving ∧
      Event.netnsGet (-1) false ∈
        (receiverMain ["ztunnel-emulator", "/tmp/t.sock"] captureFails servingWorld).trace ∧
      Event.netnsSet (-1) false ∈
        (receiverMain ["ztunnel-emulator", "/tmp/t.sock"] captureFails servingWorld).trace ∧
      servingWorld.threadNs = 0 ∧
      servingWorld.handles 5 = some 7 ∧
      (receiverMain ["ztunnel-emulator", "/tmp/t.sock"] captureFails
        servingWorld).world.threadNs = 7) := by
  refine ⟨?_, by decide⟩
  intro args env w conn nsfd t hargs hlisten haccept hrecv hnsfd htarget hswitch h1 h2 h3
  have hlt : ¬ nsfd < 0 := not_lt.mpr hnsfd
  have hsw : ∃ w1, (afterCapture env w).setns nsfd env.setnsAllowed = some w1 := by
    cases hg : env.netnsGet with
    | none => simp [afterCapture, World.setns, hg, hlt, htarget, hswitch]
    | some cur =>
      by_cases hc : nsfd = cur
      · subst hc
        simp [afterCapture, World.setns, World.capture, hg, hlt, hswitch]
      · simp [afterCapture, World.setns, World.capture, hg, hlt, hc, htarget, hswitch]
  obtain ⟨w1, hsw⟩ := hsw
  rw [receiverMain_of_handshake args env w conn nsfd hargs hlisten haccept hrecv]
  obtain ⟨ht, he, _⟩ := switchAndServe_serves env nsfd (args.getD 1 "") w w1 hsw h1 h2 h3
  rw [ht, he]
  simp [headTrace, serveTrace, loopsStarted]

/-- C10, first part, at the run in which the capture fails. -/
theorem capture_and_restore_errors_ignored_witness :
    captureFails.netnsGet = none ∧
    (receiverMain ["ztunnel-emulator", "/tmp/t.sock"] captureFails servingWorld).exit
      = .serving :=
  ⟨rfl,
    (capture_and_restore_errors_ignored.1 ["ztunnel-emulator", "/tmp/t.sock"] captureFails
      servingWorld ⟨.ok (senderMsg 5)⟩ 5 7 (by decide) rfl rfl (by decide) (by decide)
      (by decide) rfl rfl rfl rfl).1⟩

end Ztunnel
